import Mathlib

/-!
Verification of the SmartShelfGUIDemo core against its natural-language
specification.  The Python sources (src/parser.py, src/message.py,
src/gui/shelf.py, src/serial_handler.py) are shallowly embedded below:
pure fragments become Lean functions, widget state becomes explicit
records, raised exceptions become Option/Except values.  Character and
digit handling models the ASCII semantics of the wire protocol.
-/

namespace SmartShelf

/-! ## Python primitive helpers

String primitives are implemented structurally over the character list
of a string, mirroring the Python string methods the sources use, so
that every definition evaluates inside the kernel. -/

/-- Whitespace as Python str.strip and int() recognize it over ASCII. -/
def isPySpace (c : Char) : Bool :=
  c = ' ' || c = '\t' || c = '\n' || c = '\r' || c = '\x0b' || c = '\x0c'

/-- Python str.strip over a character list: drop whitespace from both
ends. -/
def pyStripList (cs : List Char) : List Char :=
  ((cs.dropWhile isPySpace).reverse.dropWhile isPySpace).reverse

/-- Python str.strip on a string. -/
def pyStrip (s : String) : String :=
  String.mk (pyStripList s.data)

/-- Python str.upper over ASCII: uppercase every character. -/
def pyUpper (s : String) : String :=
  String.mk (s.data.map Char.toUpper)

/-- Accumulating pass of Python str.split with a one-character
separator. -/
def pySplitAux (sep : Char) : List Char → List Char → List String
  | [], cur => [String.mk cur.reverse]
  | c :: rest, cur =>
    if c = sep then String.mk cur.reverse :: pySplitAux sep rest []
    else pySplitAux sep rest (c :: cur)

/-- Python str.split with a one-character separator: splits at every
occurrence and keeps empty pieces, so the result is never empty. -/
def pySplit (s : String) (sep : Char) : List String :=
  pySplitAux sep s.data []

/-- Whether the string starts with the given character (the startswith
test of parse_message uses the one-character prefix). -/
def pyStartsWith (s : String) (c : Char) : Bool :=
  match s.data with
  | d :: _ => d = c
  | [] => false

/-- Python one-character slice drop, msg[1:]. -/
def pyDrop1 (s : String) : String :=
  String.mk (s.data.drop 1)

/-- Numeric value of a decimal digit character, as accepted by Python
int(s) over ASCII input; None for any other character. -/
def decVal (c : Char) : Option Nat :=
  if '0' ≤ c ∧ c ≤ '9' then some (c.toNat - 48) else none

/-- Numeric value of a hexadecimal digit character, as accepted by Python
int(s, 16) over ASCII input; None for any other character. -/
def hexVal (c : Char) : Option Nat :=
  if '0' ≤ c ∧ c ≤ '9' then some (c.toNat - 48)
  else if 'a' ≤ c ∧ c ≤ 'f' then some (c.toNat - 87)
  else if 'A' ≤ c ∧ c ≤ 'F' then some (c.toNat - 55)
  else none

/-- Digit run after its first digit: Python allows a single underscore
only between two digits, so an underscore must be followed by a digit. -/
def parseDigitsAux (val : Char → Option Nat) (base : Nat) : List Char → Nat → Option Nat
  | [], acc => some acc
  | '_' :: c :: cs, acc =>
    match val c with
    | some d => parseDigitsAux val base cs (acc * base + d)
    | none => none
  | ['_'], _ => none
  | c :: cs, acc =>
    match val c with
    | some d => parseDigitsAux val base cs (acc * base + d)
    | none => none

/-- Nonempty digit run: must start and end with a digit, single
underscores allowed between digits (Python numeric-literal rule used by
int()). -/
def parseDigits (val : Char → Option Nat) (base : Nat) : List Char → Option Nat
  | [] => none
  | c :: cs =>
    match val c with
    | some d => parseDigitsAux val base cs d
    | none => none

/-- Magnitude part of Python int(s): decimal digits with underscores. -/
def parsePyIntBody (cs : List Char) : Option Nat :=
  parseDigits decVal 10 cs

/-- Hex digit run after an optional 0x / 0X prefix; Python additionally
allows one underscore directly after the prefix. -/
def parsePyHexTail : List Char → Option Nat
  | '_' :: rest => parseDigits hexVal 16 rest
  | rest => parseDigits hexVal 16 rest

/-- Magnitude part of Python int(s, 16): optional 0x / 0X prefix then
hex digits with underscores. -/
def parsePyHexBody : List Char → Option Nat
  | '0' :: 'x' :: rest => parsePyHexTail rest
  | '0' :: 'X' :: rest => parsePyHexTail rest
  | rest => parseDigits hexVal 16 rest

/-- Shallow embedding of Python int(s): strip whitespace, optional sign,
then a nonempty digit run; None models the raised ValueError. -/
def parsePyInt (s : String) : Option Int :=
  match pyStripList s.data with
  | '+' :: rest => (parsePyIntBody rest).map Int.ofNat
  | '-' :: rest => (parsePyIntBody rest).map (fun n => -(Int.ofNat n))
  | rest => (parsePyIntBody rest).map Int.ofNat

/-- Shallow embedding of Python int(s, 16): strip whitespace, optional
sign, optional 0x prefix, then hex digits; None models the raised
ValueError (and the TypeError on a None argument is handled by callers). -/
def parsePyHex (s : String) : Option Int :=
  match pyStripList s.data with
  | '+' :: rest => (parsePyHexBody rest).map Int.ofNat
  | '-' :: rest => (parsePyHexBody rest).map (fun n => -(Int.ofNat n))
  | rest => (parsePyHexBody rest).map Int.ofNat

/-- Uppercase hexadecimal digit character for a value below 16. -/
def hexChar (n : Nat) : Char :=
  if n < 10 then Char.ofNat (48 + n) else Char.ofNat (55 + n)

/-- Little-endian uppercase hex digits of a natural number, with explicit
fuel so that evaluation is structural; empty when the value is 0. -/
def natToHexRevFuel : Nat → Nat → List Char
  | 0, _ => []
  | fuel + 1, n => if n = 0 then [] else hexChar (n % 16) :: natToHexRevFuel fuel (n / 16)

/-- Uppercase hex digit characters of a natural number, most significant
first; the number itself is always enough fuel because the value shrinks
by a factor of 16 at each step. -/
def natToHexList (n : Nat) : List Char :=
  if n = 0 then ['0'] else (natToHexRevFuel n n).reverse

/-- Left-pad a character list with zero characters up to the given
width. -/
def padZerosList (l : List Char) (w : Nat) : List Char :=
  List.replicate (w - l.length) '0' ++ l

/-- Shallow embedding of the Python format f-string with spec 04X: the
uppercase hex digits of the value, zero-padded so the whole result
(sign included for negative values) has width at least 4. -/
def formatHex04X (n : Int) : String :=
  if n < 0 then String.mk ('-' :: padZerosList (natToHexList n.natAbs) 3)
  else String.mk (padZerosList (natToHexList n.toNat) 4)

/-! ## src/message.py -/

/-- Embedding of the MessageType enumeration of src/message.py. -/
inductive MessageType
  | DISTANCE
  | BATTERY
  | DISCONNECTED
  | OTHER
deriving DecidableEq, Repr

/-- Embedding of the Message class of src/message.py: type, raw content,
optional canonicalized ESL ID and optional integer payload. -/
structure Message where
  msg_type : MessageType
  content : String
  esl_id : Option String
  data : Option Int
deriving DecidableEq, Repr

/-- Embedding of Message._convert_esl_id: int(esl_id, 16) formatted with
04X; any conversion failure (non-hex string, or the None argument) is
caught and yields None. -/
def convert_esl_id : Option String → Option String
  | none => none
  | some s => (parsePyHex s).map formatHex04X

/-- Embedding of the Message constructor, which canonicalizes the passed
ESL ID via _convert_esl_id before storing it. -/
def Message.make (t : MessageType) (content : String) (esl_id : Option String)
    (data : Option Int) : Message :=
  { msg_type := t, content := content, esl_id := convert_esl_id esl_id, data := data }

/-! ## src/parser.py -/

/-- Single left-to-right scan extracting every substring enclosed in a
matching bracket pair, as the regex findall of parser.py does: the inner
state is None outside a field and the reversed field characters inside
one; an unclosed trailing field is dropped. -/
def extractFieldsLoop : List Char → Option (List Char) → List String → List String
  | [], _, acc => acc.reverse
  | c :: rest, none, acc =>
    if c = '[' then extractFieldsLoop rest (some []) acc
    else extractFieldsLoop rest none acc
  | c :: rest, some cur, acc =>
    if c = ']' then extractFieldsLoop rest none (String.mk cur.reverse :: acc)
    else extractFieldsLoop rest (some (c :: cur)) acc

/-- Embedding of re.findall applied to the bracket-field pattern of
Parser.parse_message_fields. -/
def extractFields (s : String) : List String :=
  extractFieldsLoop s.toList none []

/-- Embedding of Parser.parse_message_fields.  The Python body runs under
a try/except that catches every exception and returns None; the exception
paths (missing field or list index, non-integer payload) are modelled as
the None branches below. -/
def parse_message_fields (msg : String) : Option Message :=
  match extractFields (pyDrop1 msg) with
  | [] => none
  | f0 :: fieldsTail =>
    let first_field := pySplit f0 ':'
    if pyUpper (first_field.headD "") = "ESL_ID" then
      match first_field.get? 1 with
      | none => none
      | some idRaw =>
        let esl_id := pyStrip idRaw
        match fieldsTail.head? with
        | none => none
        | some f1 =>
          let second_field := pySplit f1 ':'
          let key := pyUpper (pyStrip (second_field.headD ""))
          if key = "DISTANCE" then
            match second_field.get? 1 with
            | none => none
            | some payload =>
              match parsePyInt (pyStrip payload) with
              | none => none
              | some n => some (Message.make MessageType.DISTANCE msg (some esl_id) (some n))
          else if key = "BATTERY" then
            match second_field.get? 1 with
            | none => none
            | some payload =>
              match parsePyInt (pyStrip payload) with
              | none => none
              | some n => some (Message.make MessageType.BATTERY msg (some esl_id) (some n))
          else if key = "TAG DISCONNECTED" then
            some (Message.make MessageType.DISCONNECTED msg (some esl_id) none)
          else
            some (Message.make MessageType.OTHER msg none none)
    else
      some (Message.make MessageType.OTHER msg none none)

/-- Embedding of Parser.parse_message, the decode entry point: the value
emitted on the message_parsed signal (None when parse_message_fields
swallowed an exception). -/
def parse_message (message : String) : Option Message :=
  let parsed_message := pyStrip message
  if pyStartsWith parsed_message '#' then
    parse_message_fields parsed_message
  else
    some (Message.make MessageType.OTHER message none none)

/-! ## src/gui/shelf.py: RailWidget -/

/-- Embedding of the widget state of RailWidget: the calibration
attributes set in the constructor, the displayed item count (progress-bar
value and count label), and the connection colouring of the count label
(None before any styling, some true for the white connected colour, some
false for the red disconnected colour). -/
structure RailWidget where
  esl_id : String
  mac_address : String
  rail_empty_distance : Int
  rail_full_distance : Int
  item_length : Int
  tolerance : Int
  max_items : Int
  image_path : String
  item_count : Int
  connected : Option Bool
deriving DecidableEq, Repr

/-- Embedding of RailWidget.__init__.  The tolerance int(0.25 *
item_length) is exact in floating point and truncates toward zero, hence
Int.tdiv by 4; max_items uses Python floor division, hence Int.fdiv.
A zero item_length raises ZeroDivisionError in Python, modelled as None.
The progress bar starts at value 0 and no connection colour is set. -/
def RailWidget.init (rail_empty_distance rail_full_distance item_length : Int)
    (esl_id mac_address image_path : String) : Option RailWidget :=
  if item_length = 0 then none
  else some {
    esl_id := esl_id
    mac_address := mac_address
    rail_empty_distance := rail_empty_distance
    rail_full_distance := rail_full_distance
    item_length := item_length
    tolerance := Int.tdiv item_length 4
    max_items := Int.fdiv (rail_empty_distance - rail_full_distance) item_length
    image_path := image_path
    item_count := 0
    connected := none }

/-- Embedding of RailWidget.update_distance: floor-divide the adjusted
distance, clamp into the progress-bar range, store and display it. -/
def RailWidget.update_distance (r : RailWidget) (distance : Int) : RailWidget :=
  let n_items := Int.fdiv (r.rail_empty_distance - distance + r.tolerance) r.item_length
  let clamped := min (max n_items 0) r.max_items
  { r with item_count := clamped }

/-- Embedding of RailWidget.update_connection_status: the code only
switches the count-label colour (white when connected, red when not);
we record the boolean that the colour renders. -/
def RailWidget.update_connection_status (r : RailWidget) (connected : Bool) : RailWidget :=
  { r with connected := some connected }

/-! ## src/gui/shelf.py: ShelfWidget -/

/-- Embedding of the shelf part of the configuration dictionary: the five
parallel sequences plus the presentation image list.  Each key defaults
to the empty list via config.get; the numeric sequences hold the JSON
integers that the int() conversions in the constructor pass through. -/
structure ShelfConfig where
  ids : List String
  mac_addresses : List String
  rail_empty_distance : List Int
  rail_full_distance : List Int
  item_length : List Int
  image_path : List String
deriving DecidableEq, Repr

/-- Dictionary insertion as Python dicts do it: an existing key keeps its
position and gets the new value, a new key is appended. -/
def railsInsert (rs : List (String × RailWidget)) (id : String) (r : RailWidget) :
    List (String × RailWidget) :=
  if rs.any (fun p => p.1 = id) then rs.map (fun p => if p.1 = id then (id, r) else p)
  else rs ++ [(id, r)]

/-- One row of ShelfWidget.setup_ui: iterate over a slice of the
canonical IDs while indexing the five other sequences at the enumeration
index plus the row offset; a missing index (Python IndexError) or a zero
item length aborts construction. -/
def buildRow (macs : List String) (empties fulls lens : List Int) (imgs : List String) :
    List String → Nat → Option (List (String × RailWidget))
  | [], _ => some []
  | id :: rest, i =>
    match empties.get? i, fulls.get? i, lens.get? i, macs.get? i, imgs.get? i with
    | some e, some f, some l, some mac, some img =>
      match RailWidget.init e f l id mac img with
      | none => none
      | some r => (buildRow macs empties fulls lens imgs rest (i + 1)).map
          (fun rs => (id, r) :: rs)
    | _, _, _, _, _ => none

/-- Embedding of ShelfWidget.__init__ together with setup_ui: canonicalize
every configured ID (a non-hex ID raises, aborting construction), then
build the top row from the first seven IDs and the bottom row from IDs
seven through ten, indexing the other sequences in parallel, and collect
the rails dictionary in insertion order.  The warning for an ID count
other than eleven is a log line only and does not affect the result. -/
def ShelfWidget.build (cfg : ShelfConfig) : Option (List (String × RailWidget)) := do
  let ids ← cfg.ids.mapM (fun s => (parsePyHex s).map formatHex04X)
  let top ← buildRow cfg.mac_addresses cfg.rail_empty_distance cfg.rail_full_distance
      cfg.item_length cfg.image_path (ids.take 7) 0
  let bottom ← buildRow cfg.mac_addresses cfg.rail_empty_distance cfg.rail_full_distance
      cfg.item_length cfg.image_path ((ids.drop 7).take 4) 7
  some ((top ++ bottom).foldl (fun rs p => railsInsert rs p.1 p.2) [])

/-- Embedding of ShelfWidget.is_rail_valid: dictionary membership test. -/
def is_rail_valid (rails : List (String × RailWidget)) (esl_id : String) : Bool :=
  rails.any (fun p => p.1 = esl_id)

/-- Replace the value stored under a key, leaving every other entry as
it is (Python dict item assignment on an existing key). -/
def railsModify (rails : List (String × RailWidget)) (id : String)
    (f : RailWidget → RailWidget) : List (String × RailWidget) :=
  rails.map (fun p => if p.1 = id then (p.1, f p.2) else p)

/-- Embedding of ShelfWidget.update_shelf.  A message with no ID, an ID
not on the shelf, or an OTHER type leaves the rails untouched; a DISTANCE
message with a None payload would raise a TypeError inside
update_distance, modelled as None; otherwise the matching rail is
updated exactly as the slot body does. -/
def update_shelf (rails : List (String × RailWidget)) (message : Message) :
    Option (List (String × RailWidget)) :=
  match message.esl_id with
  | some id =>
    if is_rail_valid rails id then
      match message.msg_type with
      | MessageType.DISTANCE =>
        match message.data with
        | none => none
        | some d => some (railsModify rails id
            (fun r => RailWidget.update_distance (r.update_connection_status true) d))
      | MessageType.DISCONNECTED =>
        some (railsModify rails id (fun r => r.update_connection_status false))
      | MessageType.BATTERY =>
        some (railsModify rails id (fun r => r.update_connection_status true))
      | MessageType.OTHER => some rails
    else some rails
  | none => some rails

/-! ## src/serial_handler.py -/

/-- Embedding of the QSerialPort data-bits values selected by
SerialHandler._set_data_bits. -/
inductive DataBitsSetting
  | data5
  | data6
  | data7
  | data8
deriving DecidableEq, Repr

/-- Embedding of the value handed to setParity: one of the five
QSerialPort parity constants, or the unconverted configuration string
when no case of the match statement applies (the code falls through with
the raw value). -/
inductive ParitySetting
  | noParity
  | evenParity
  | oddParity
  | markParity
  | spaceParity
  | raw (value : String)
deriving DecidableEq, Repr

/-- Embedding of the QSerialPort stop-bits values selected by
SerialHandler._set_stop_bits. -/
inductive StopBitsSetting
  | oneStop
  | oneAndHalfStop
  | twoStop
deriving DecidableEq, Repr

/-- Embedding of the QSerialPort flow-control values selected by
SerialHandler._set_flow_control. -/
inductive FlowControlSetting
  | noFlowControl
  | hardwareControl
  | softwareControl
deriving DecidableEq, Repr

/-- Embedding of the serial section of the configuration dictionary; a
missing key is None and the dict.get default applies. The stop_bits
entry is a JSON number that may be fractional, hence Rat. -/
structure SerialConfig where
  port : Option String
  baudrate : Option Int
  data_bits : Option Int
  parity : Option String
  stop_bits : Option Rat
  flow_control : Option String
deriving DecidableEq, Repr

/-- Embedding of the settings stored on the QSerialPort object by the
six setter helpers. -/
structure SerialSettings where
  portName : String
  baudRate : Int
  dataBits : DataBitsSetting
  parity : ParitySetting
  stopBits : StopBitsSetting
  flowControl : FlowControlSetting
deriving DecidableEq, Repr

/-- Embedding of SerialHandler._set_data_bits: any value outside 5..8
silently becomes Data8 through the wildcard case. -/
def set_data_bits (data_bits : Int) : DataBitsSetting :=
  if data_bits = 5 then DataBitsSetting.data5
  else if data_bits = 6 then DataBitsSetting.data6
  else if data_bits = 7 then DataBitsSetting.data7
  else DataBitsSetting.data8

/-- Embedding of SerialHandler._set_parity: an unmatched string is left
unconverted by the pass case and handed to setParity as it is. -/
def set_parity (parity : String) : ParitySetting :=
  if parity = "None" then ParitySetting.noParity
  else if parity = "Even" then ParitySetting.evenParity
  else if parity = "Odd" then ParitySetting.oddParity
  else if parity = "Mark" then ParitySetting.markParity
  else if parity = "Space" then ParitySetting.spaceParity
  else ParitySetting.raw parity

/-- Embedding of SerialHandler._set_stop_bits: any value other than 1,
1.5 or 2 silently becomes OneStop through the wildcard case. -/
def set_stop_bits (stop_bits : Rat) : StopBitsSetting :=
  if stop_bits = 1 then StopBitsSetting.oneStop
  else if stop_bits = (3 : Rat) / 2 then StopBitsSetting.oneAndHalfStop
  else if stop_bits = 2 then StopBitsSetting.twoStop
  else StopBitsSetting.oneStop

/-- Embedding of SerialHandler._set_flow_control: any unmatched value
silently becomes NoFlowControl through the wildcard case. -/
def set_flow_control (flow_control : String) : FlowControlSetting :=
  if flow_control = "None" then FlowControlSetting.noFlowControl
  else if flow_control = "RTS/CTS" then FlowControlSetting.hardwareControl
  else if flow_control = "XON/XOFF" then FlowControlSetting.softwareControl
  else FlowControlSetting.noFlowControl

/-- Embedding of SerialHandler.configure_serial: only _set_port_name can
raise (a falsy port name, that is missing or empty), and that ValueError
is re-raised; every other setter always succeeds with its default or
fallback value. -/
def configure_serial (cfg : SerialConfig) : Except String SerialSettings :=
  match cfg.port with
  | none => Except.error "Port name must be specified."
  | some p =>
    if p = "" then Except.error "Port name must be specified."
    else Except.ok {
      portName := p
      baudRate := cfg.baudrate.getD 115200
      dataBits := set_data_bits (cfg.data_bits.getD 8)
      parity := set_parity (cfg.parity.getD "None")
      stopBits := set_stop_bits (cfg.stop_bits.getD 1)
      flowControl := set_flow_control (cfg.flow_control.getD "RTS/CTS") }

/-- Transport link state: closed, or open with the configured settings. -/
inductive LinkState
  | Closed
  | Opened (settings : SerialSettings)
deriving DecidableEq, Repr

/-- Embedding of the open attempt of SerialHandler.__init__ and
update_serial_config: configure_serial first (its ValueError aborts the
attempt with the port never opened), then open_serial, whose physical
outcome is the external hardware_ok input; a physical failure is logged
and leaves the link closed without a configuration error. -/
def attempt_open (cfg : SerialConfig) (hardware_ok : Bool) : LinkState × Option String :=
  match configure_serial cfg with
  | Except.error e => (LinkState.Closed, some e)
  | Except.ok s => if hardware_ok then (LinkState.Opened s, none) else (LinkState.Closed, none)

/-- Observable transport state for the write path: whether the port is
open and the chunks handed to serial.write so far. -/
structure SerialPortState where
  isOpen : Bool
  written : List String
deriving DecidableEq, Repr

/-- Outcome of SerialHandler.send_message: the early-return rejection
when the port is closed, or the text accepted for writing. -/
inductive SendResult
  | rejected
  | sent (message : String)
deriving DecidableEq, Repr

/-- Embedding of SerialHandler.send_message: a closed port logs the
rejection and returns before anything is written; otherwise exactly one
newline is appended and the result is handed to serial.write (a
hardware-level -1 from write is below this embedding). -/
def send_message (st : SerialPortState) (message : String) : SerialPortState × SendResult :=
  if st.isOpen = false then (st, SendResult.rejected)
  else
    let message_to_send := message ++ "\n"
    ({ st with written := st.written ++ [message_to_send] }, SendResult.sent message_to_send)

/-- Concrete registry of the dispatch scenario: a shelf configured with
the single ID 0A. -/
def demoRegistry : List (String × RailWidget) :=
  (ShelfWidget.build ⟨["0A"], ["AA:BB"], [500], [100], [40], ["img"]⟩).getD []

/-! ## Helper lemmas -/

/-- Modifying a key that is not in the rails dictionary is the identity. -/
theorem railsModify_of_invalid (rails : List (String × RailWidget)) (id : String)
    (f : RailWidget → RailWidget) (h : is_rail_valid rails id = false) :
    railsModify rails id f = rails := by
  induction rails with
  | nil => rfl
  | cons p rs ih =>
    simp only [is_rail_valid, List.any_cons, Bool.or_eq_false_iff] at h
    simp only [railsModify, List.map_cons]
    rw [if_neg (by simpa using h.1)]
    have := ih (by simpa [is_rail_valid] using h.2)
    simpa [railsModify] using congrArg (List.cons p) this

/-- Flooring integer division is the rational floor of the quotient when
the divisor is positive. -/
theorem fdiv_eq_ratFloor (a : Int) {b : Int} (hb : 0 < b) :
    Int.fdiv a b = ⌊(a : ℚ) / (b : ℚ)⌋ := by
  obtain ⟨n, rfl⟩ : ∃ n : ℕ, b = (n : ℤ) := ⟨b.toNat, (Int.toNat_of_nonneg hb.le).symm⟩
  rw [Int.fdiv_eq_ediv a hb.le, ← Rat.floor_intCast_div_natCast a n]
  norm_num

/-! ## C3, C5: rail distance mapping -/

/-- C3: with a positive item length the rail is constructed with
tolerance equal to the floor of a quarter item length and max_items equal
to the floor of the travel divided by the item length, update_distance
stores the clamped floor of the adjusted quotient, and the concrete
calibration empty=500, full=100, item_length=40 gives max_items=10,
tolerance=10, and item count 9 for distance 120. -/
theorem rail_calibration_distance_mapping (empty full len : Int) (esl mac img : String)
    (hlen : 0 < len) (d : Int) :
    ∃ r, RailWidget.init empty full len esl mac img = some r ∧
      r.tolerance = ⌊(0.25 : ℚ) * (len : ℚ)⌋ ∧
      r.max_items = ⌊((empty : ℚ) - (full : ℚ)) / (len : ℚ)⌋ ∧
      (r.update_distance d).item_count =
        min (max ⌊((empty : ℚ) - (d : ℚ) + (r.tolerance : ℚ)) / (len : ℚ)⌋ 0) r.max_items ∧
      (RailWidget.init 500 100 40 esl mac img).map
        (fun r0 => (r0.tolerance, r0.max_items, (r0.update_distance 120).item_count)) =
        some (10, 10, 9) := by
  have hne : len ≠ 0 := by omega
  unfold RailWidget.init
  rw [if_neg hne]
  refine ⟨_, rfl, ?_, ?_, ?_, by rfl⟩
  · show Int.tdiv len 4 = _
    rw [← Int.fdiv_eq_tdiv hlen.le (by decide), fdiv_eq_ratFloor len (by decide)]
    congr 1
    push_cast
    ring
  · show Int.fdiv (empty - full) len = _
    rw [fdiv_eq_ratFloor _ hlen]
    congr 1
    push_cast
    ring
  · show min (max (Int.fdiv (empty - d + Int.tdiv len 4) len) 0) (Int.fdiv (empty - full) len) = _
    rw [fdiv_eq_ratFloor _ hlen]
    congr 2
    push_cast
    ring

/-- Witness for C3 at the concrete calibration of the scenario. -/
theorem rail_calibration_distance_mapping_witness :
    (RailWidget.init 500 100 40 "e" "m" "i").map
      (fun r0 => (r0.tolerance, r0.max_items, (r0.update_distance 120).item_count)) =
      some (10, 10, 9) := by
  obtain ⟨r, -, -, -, -, h⟩ :=
    rail_calibration_distance_mapping 500 100 40 "e" "m" "i" (by decide) 120
  exact h

/-- C5 counterexample: for the calibration empty=0, full=100,
item_length=40 (item_length positive, so admitted by the claim) the
item count stored for distance 0 is -3, which is negative and therefore
not within [0, max_items]. -/
theorem distance_mapping_negative_counterexample :
    (RailWidget.init 0 100 40 "e" "m" "i").map
      (fun r => (r.update_distance 0).item_count) = some (-3) ∧ ((-3 : Int) < 0) :=
  ⟨by rfl, by decide⟩

/-- C5 amended: for a fixed calibration with positive item length the
stored item count is non-increasing in the distance, and when max_items
is nonnegative (empty distance at least full distance) the count always
lies within [0, max_items]. -/
theorem distance_mapping_monotone_clamped (empty full len : Int) (esl mac img : String)
    (hlen : 0 < len) (r : RailWidget)
    (hr : RailWidget.init empty full len esl mac img = some r)
    (d1 d2 : Int) (h12 : d1 ≤ d2) :
    (r.update_distance d2).item_count ≤ (r.update_distance d1).item_count ∧
    (0 ≤ r.max_items →
      0 ≤ (r.update_distance d2).item_count ∧
      (r.update_distance d2).item_count ≤ r.max_items) := by
  have hne : len ≠ 0 := by omega
  unfold RailWidget.init at hr
  rw [if_neg hne] at hr
  injection hr with hr
  subst hr
  simp only [RailWidget.update_distance]
  constructor
  · have hmono : Int.fdiv (empty - d2 + Int.tdiv len 4) len ≤
        Int.fdiv (empty - d1 + Int.tdiv len 4) len := by
      rw [Int.fdiv_eq_ediv _ hlen.le, Int.fdiv_eq_ediv _ hlen.le]
      exact Int.ediv_le_ediv hlen (by omega)
    exact min_le_min (max_le_max hmono (le_refl 0)) (le_refl _)
  · intro hM
    exact ⟨le_min (le_max_right _ _) hM, min_le_right _ _⟩

/-- Witness for C5 amended at the concrete calibration of the scenario,
with distances 120 and 200. -/
theorem distance_mapping_monotone_clamped_witness :
    ((⟨"e", "m", 500, 100, 40, 10, 10, "i", 0, none⟩ : RailWidget).update_distance 200).item_count ≤
      ((⟨"e", "m", 500, 100, 40, 10, 10, "i", 0, none⟩ : RailWidget).update_distance 120).item_count ∧
    (0 ≤ (⟨"e", "m", 500, 100, 40, 10, 10, "i", 0, none⟩ : RailWidget).max_items →
      0 ≤ ((⟨"e", "m", 500, 100, 40, 10, 10, "i", 0, none⟩ : RailWidget).update_distance 200).item_count ∧
      ((⟨"e", "m", 500, 100, 40, 10, 10, "i", 0, none⟩ : RailWidget).update_distance 200).item_count ≤
        (⟨"e", "m", 500, 100, 40, 10, 10, "i", 0, none⟩ : RailWidget).max_items) :=
  distance_mapping_monotone_clamped 500 100 40 "e" "m" "i" (by decide)
    ⟨"e", "m", 500, 100, 40, 10, 10, "i", 0, none⟩ (by rfl) 120 200 (by decide)

/-! ## C7, C8: dispatch -/

/-- C7: a typed event whose canonical ID is present but not a key of the
registry is dropped by update_shelf without an error and without mutating
any rail state. -/
theorem dispatch_unknown_id_no_mutation (rails : List (String × RailWidget))
    (m : Message) (id : String) (hid : m.esl_id = some id)
    (hmiss : is_rail_valid rails id = false) :
    update_shelf rails m = some rails := by
  simp [update_shelf, hid, hmiss]

/-- Witness for C7: a registry built only from ID 0A ignores a Distance
event for ID 000B. -/
theorem dispatch_unknown_id_no_mutation_witness :
    update_shelf demoRegistry
      (Message.make MessageType.DISTANCE "#[ESL_ID:000B][DISTANCE:1]" (some "000B") (some 1)) =
      some demoRegistry :=
  dispatch_unknown_id_no_mutation demoRegistry _ "000B" (by rfl) (by rfl)

/-- C8: dispatching a Disconnected event with a present ID sets connected
to false on the addressed rail, leaves its item_count and every other
field unchanged, and touches no other rail. -/
theorem disconnected_freezes_item_count (rails : List (String × RailWidget))
    (m : Message) (id : String) (ht : m.msg_type = MessageType.DISCONNECTED)
    (hid : m.esl_id = some id) :
    update_shelf rails m =
      some (rails.map (fun p =>
        if p.1 = id then (p.1, { p.2 with connected := some false }) else p)) := by
  have key : update_shelf rails m =
      some (railsModify rails id (fun r => r.update_connection_status false)) := by
    by_cases hv : is_rail_valid rails id
    · simp [update_shelf, hid, ht, hv]
    · have h0 : is_rail_valid rails id = false := by simpa using hv
      rw [railsModify_of_invalid rails id _ h0]
      simp [update_shelf, hid, h0]
  rw [key]
  rfl

/-- Witness for C8 on the concrete one-rail registry. -/
theorem disconnected_freezes_item_count_witness :
    update_shelf demoRegistry
      (Message.make MessageType.DISCONNECTED "#[ESL_ID:0A][TAG DISCONNECTED]" (some "0A") none) =
      some (demoRegistry.map (fun p =>
        if p.1 = "000A" then (p.1, { p.2 with connected := some false }) else p)) :=
  disconnected_freezes_item_count demoRegistry _ "000A" (by rfl) (by rfl)

/-! ## C9: write path -/

/-- C9: a send while the port is closed is rejected with nothing written
and the transport state unchanged; a send while open writes the text with
exactly one appended line terminator. -/
theorem send_rejected_when_closed (st : SerialPortState) (text : String) :
    (st.isOpen = false → send_message st text = (st, SendResult.rejected)) ∧
    (st.isOpen = true → send_message st text =
      ({ st with written := st.written ++ [text ++ "\n"] }, SendResult.sent (text ++ "\n"))) := by
  constructor
  · intro h
    unfold send_message
    rw [h]
    rfl
  · intro h
    unfold send_message
    rw [h]
    rfl

/-- Witness for C9: PING while closed is rejected with zero bytes
written; PING while open writes one newline-terminated line. -/
theorem send_rejected_when_closed_witness :
    send_message ⟨false, []⟩ "PING" = (⟨false, []⟩, SendResult.rejected) ∧
    send_message ⟨true, []⟩ "PING" = (⟨true, ["PING\n"]⟩, SendResult.sent "PING\n") :=
  ⟨(send_rejected_when_closed ⟨false, []⟩ "PING").1 rfl,
   (send_rejected_when_closed ⟨true, []⟩ "PING").2 rfl⟩

/-! ## C10: open attempt configuration errors -/

/-- C10 counterexample: an out-of-range data_bits value of 9 is not a
fatal configuration error; it is silently coerced to Data8, no error is
surfaced, and the open proceeds to an Open link. -/
theorem invalid_data_bits_opens_counterexample :
    attempt_open ⟨some "COM1", none, some 9, none, none, none⟩ true =
      (LinkState.Opened ⟨"COM1", 115200, DataBitsSetting.data8, ParitySetting.noParity,
        StopBitsSetting.oneStop, FlowControlSetting.hardwareControl⟩, none) := by
  rfl

/-- C10 amended: only a missing or empty port is a fatal configuration
error (surfaced, link stays Closed); with a usable port the configuration
step always succeeds, out-of-range data_bits, stop_bits and flow_control
values silently fall back to Data8, OneStop and NoFlowControl, and an
unrecognized parity string is passed through unconverted. -/
theorem open_config_error_only_for_port (cfg : SerialConfig) (hw : Bool) :
    ((cfg.port = none ∨ cfg.port = some "") →
      attempt_open cfg hw = (LinkState.Closed, some "Port name must be specified.")) ∧
    (∀ p, cfg.port = some p → p ≠ "" →
      ∃ s, configure_serial cfg = Except.ok s ∧
        (∀ db : Int, cfg.data_bits = some db → db ∉ ([5, 6, 7, 8] : List Int) →
          s.dataBits = DataBitsSetting.data8) ∧
        (∀ sb : Rat, cfg.stop_bits = some sb → sb ∉ ([1, 3 / 2, 2] : List Rat) →
          s.stopBits = StopBitsSetting.oneStop) ∧
        (∀ fc : String, cfg.flow_control = some fc →
          fc ∉ (["None", "RTS/CTS", "XON/XOFF"] : List String) →
          s.flowControl = FlowControlSetting.noFlowControl) ∧
        (∀ pa : String, cfg.parity = some pa →
          pa ∉ (["None", "Even", "Odd", "Mark", "Space"] : List String) →
          s.parity = ParitySetting.raw pa)) := by
  constructor
  · rintro (h | h) <;>
      simp [attempt_open, configure_serial, h]
  · intro p hp hne
    have hcfg : configure_serial cfg = Except.ok {
        portName := p
        baudRate := cfg.baudrate.getD 115200
        dataBits := set_data_bits (cfg.data_bits.getD 8)
        parity := set_parity (cfg.parity.getD "None")
        stopBits := set_stop_bits (cfg.stop_bits.getD 1)
        flowControl := set_flow_control (cfg.flow_control.getD "RTS/CTS") } := by
      simp [configure_serial, hp, hne]
    refine ⟨_, hcfg, ?_, ?_, ?_, ?_⟩
    · intro db hdb hmem
      simp only [List.mem_cons, List.not_mem_nil, or_false, not_or] at hmem
      simp [set_data_bits, hdb, hmem.1, hmem.2.1, hmem.2.2]
    · intro sb hsb hmem
      simp only [List.mem_cons, List.not_mem_nil, or_false, not_or] at hmem
      simp [set_stop_bits, hsb, hmem.1, hmem.2.1, hmem.2.2]
    · intro fc hfc hmem
      simp only [List.mem_cons, List.not_mem_nil, or_false, not_or] at hmem
      simp [set_flow_control, hfc, hmem.1, hmem.2.1, hmem.2.2]
    · intro pa hpa hmem
      simp only [List.mem_cons, List.not_mem_nil, or_false, not_or] at hmem
      simp [set_parity, hpa, hmem.1, hmem.2.1, hmem.2.2.1, hmem.2.2.2.1, hmem.2.2.2.2]

/-- Witness for C10 amended: a configuration without a port fails the
open attempt with the surfaced error and a Closed link. -/
theorem open_config_error_only_for_port_witness :
    attempt_open ⟨none, none, none, none, none, none⟩ true =
      (LinkState.Closed, some "Port name must be specified.") :=
  (open_config_error_only_for_port ⟨none, none, none, none, none, none⟩ true).1 (Or.inl rfl)

/-! ## C1: decoder totality -/

/-- C1 counterexample: the malformed protocol line with a non-integer
DISTANCE payload does not degrade to an Unclassified event; the decoder
emits no event at all (the swallowed exception path returns None). -/
theorem decode_not_total_counterexample :
    parse_message "#[ESL_ID:0A][DISTANCE:xyz]" = none := by
  rfl

/-- C1 amended: the decoder never raises, and a line with no sentinel
degrades to Unclassified carrying the original text, while a sentinel
line whose first field key is not ESL_ID degrades to Unclassified
carrying the stripped text; but a sentinel line with zero bracketed
fields, a first ESL_ID field without a value, a missing second field, or
a non-integer payload where an integer is required yields no event
(None) instead of an Unclassified event. -/
theorem decode_totality_characterization (s : String) :
    (pyStartsWith (pyStrip s) '#' = false →
      parse_message s =
        some { msg_type := MessageType.OTHER, content := s, esl_id := none, data := none }) ∧
    (pyStartsWith (pyStrip s) '#' = true →
      extractFields (pyDrop1 (pyStrip s)) = [] →
      parse_message s = none) ∧
    (∀ f0 rest, pyStartsWith (pyStrip s) '#' = true →
      extractFields (pyDrop1 (pyStrip s)) = f0 :: rest →
      pyUpper ((pySplit f0 ':').headD "") ≠ "ESL_ID" →
      parse_message s =
        some { msg_type := MessageType.OTHER, content := pyStrip s, esl_id := none, data := none }) ∧
    (∀ f0 rest, pyStartsWith (pyStrip s) '#' = true →
      extractFields (pyDrop1 (pyStrip s)) = f0 :: rest →
      pyUpper ((pySplit f0 ':').headD "") = "ESL_ID" →
      ((pySplit f0 ':').get? 1 = none ∨ rest = []) →
      parse_message s = none) ∧
    (∀ f0 f1 rest idv, pyStartsWith (pyStrip s) '#' = true →
      extractFields (pyDrop1 (pyStrip s)) = f0 :: f1 :: rest →
      pyUpper ((pySplit f0 ':').headD "") = "ESL_ID" →
      (pySplit f0 ':').get? 1 = some idv →
      (pyUpper (pyStrip ((pySplit f1 ':').headD "")) = "DISTANCE" ∨
        pyUpper (pyStrip ((pySplit f1 ':').headD "")) = "BATTERY") →
      ((pySplit f1 ':').get? 1).bind (fun p => parsePyInt (pyStrip p)) = none →
      parse_message s = none) := by
  refine ⟨?_, ?_, ?_, ?_, ?_⟩
  · intro h
    simp [parse_message, h, Message.make, convert_esl_id]
  · intro h hfields
    simp [parse_message, h, parse_message_fields, hfields]
  · intro f0 rest h hfields hkey
    simp only [List.headD_eq_head?] at hkey
    simp [parse_message, h, parse_message_fields, hfields, hkey, Message.make, convert_esl_id]
  · intro f0 rest h hfields hkey hmiss
    simp only [List.headD_eq_head?] at hkey
    simp only [List.get?_eq_getElem?] at hmiss
    rcases hmiss with hmiss | hmiss
    · simp [parse_message, h, parse_message_fields, hfields, hkey, hmiss]
    · subst hmiss
      cases hq : (pySplit f0 ':')[1]? with
      | none => simp [parse_message, h, parse_message_fields, hfields, hkey, hq]
      | some idv => simp [parse_message, h, parse_message_fields, hfields, hkey, hq]
  · intro f0 f1 rest idv h hfields hkey hid hvariant hpayload
    simp only [List.headD_eq_head?] at hkey hvariant
    simp only [List.get?_eq_getElem?] at hid hpayload
    cases hq : (pySplit f1 ':')[1]? with
    | none =>
      rcases hvariant with hk | hk <;>
        simp [parse_message, h, parse_message_fields, hfields, hkey, hid, hk, hq]
    | some p =>
      rw [hq] at hpayload
      simp only [Option.some_bind] at hpayload
      rcases hvariant with hk | hk <;>
        simp [parse_message, h, parse_message_fields, hfields, hkey, hid, hk, hq, hpayload]

/-- Witness for C1 amended: a line without the sentinel decodes to
Unclassified with the original text, and the bare sentinel line (zero
bracketed fields) decodes to no event. -/
theorem decode_totality_characterization_witness :
    parse_message "hello world" =
      some { msg_type := MessageType.OTHER, content := "hello world",
             esl_id := none, data := none } ∧
    parse_message "#" = none :=
  ⟨(decode_totality_characterization "hello world").1 (by rfl),
   (decode_totality_characterization "#").2.1 (by rfl) (by rfl)⟩

/-! ## C2: unparseable ID -/

/-- C2 counterexample: a line whose first field key is ESL_ID with a
non-hex ID value and an integer DISTANCE payload decodes to the typed
Distance variant (with the ID dropped), not to an Unclassified event. -/
theorem unparseable_id_counterexample :
    parse_message "#[ESL_ID:xyz][DISTANCE:5]" =
      some { msg_type := MessageType.DISTANCE, content := "#[ESL_ID:xyz][DISTANCE:5]",
             esl_id := none, data := some 5 } := by
  rfl

/-- C2 amended: when the first field key is ESL_ID but the ID value is
not hex-parseable, the second field still selects the typed variant
(Distance, Battery or Disconnected) and the message carries esl_id none:
the ID is dropped, not retained, but the event is not Unclassified. -/
theorem unparseable_id_drops_id_keeps_variant (msg f0 f1 : String) (rest : List String)
    (idv : String)
    (hf : extractFields (pyDrop1 msg) = f0 :: f1 :: rest)
    (hkey : pyUpper ((pySplit f0 ':').headD "") = "ESL_ID")
    (hid : (pySplit f0 ':').get? 1 = some idv)
    (hhex : parsePyHex (pyStrip idv) = none) :
    (∀ n : Int, pyUpper (pyStrip ((pySplit f1 ':').headD "")) = "DISTANCE" →
      ((pySplit f1 ':').get? 1).bind (fun p => parsePyInt (pyStrip p)) = some n →
      parse_message_fields msg =
        some { msg_type := MessageType.DISTANCE, content := msg,
               esl_id := none, data := some n }) ∧
    (∀ n : Int, pyUpper (pyStrip ((pySplit f1 ':').headD "")) = "BATTERY" →
      ((pySplit f1 ':').get? 1).bind (fun p => parsePyInt (pyStrip p)) = some n →
      parse_message_fields msg =
        some { msg_type := MessageType.BATTERY, content := msg,
               esl_id := none, data := some n }) ∧
    (pyUpper (pyStrip ((pySplit f1 ':').headD "")) = "TAG DISCONNECTED" →
      parse_message_fields msg =
        some { msg_type := MessageType.DISCONNECTED, content := msg,
               esl_id := none, data := none }) := by
  refine ⟨?_, ?_, ?_⟩
  · intro n hk hp
    simp only [List.headD_eq_head?] at hkey hk
    simp only [List.get?_eq_getElem?] at hid hp
    cases hq : (pySplit f1 ':')[1]? with
    | none => rw [hq] at hp; cases hp
    | some p =>
      rw [hq] at hp
      simp only [Option.some_bind] at hp
      simp [parse_message_fields, hf, hkey, hid, hk, hq, hp, Message.make, convert_esl_id, hhex]
  · intro n hk hp
    simp only [List.headD_eq_head?] at hkey hk
    simp only [List.get?_eq_getElem?] at hid hp
    cases hq : (pySplit f1 ':')[1]? with
    | none => rw [hq] at hp; cases hp
    | some p =>
      rw [hq] at hp
      simp only [Option.some_bind] at hp
      simp [parse_message_fields, hf, hkey, hid, hk, hq, hp, Message.make, convert_esl_id, hhex]
  · intro hk
    simp only [List.headD_eq_head?] at hkey hk
    simp only [List.get?_eq_getElem?] at hid
    simp [parse_message_fields, hf, hkey, hid, hk, Message.make, convert_esl_id, hhex]

/-- Witness for C2 amended at the concrete line of the counterexample. -/
theorem unparseable_id_drops_id_keeps_variant_witness :
    parse_message_fields "#[ESL_ID:xyz][DISTANCE:5]" =
      some { msg_type := MessageType.DISTANCE, content := "#[ESL_ID:xyz][DISTANCE:5]",
             esl_id := none, data := some 5 } :=
  (unparseable_id_drops_id_keeps_variant "#[ESL_ID:xyz][DISTANCE:5]" "ESL_ID:xyz" "DISTANCE:5"
    [] "xyz" (by rfl) (by rfl) (by rfl) (by rfl)).1 5 (by rfl) (by rfl)

/-! ## C4: canonical ESL ID shape -/

/-- Uppercase hex digit characters land in the digit or A-F ranges. -/
theorem hexChar_shape :
    ∀ d : Nat, d < 16 → (hexChar d).isDigit ∨ ('A' ≤ hexChar d ∧ hexChar d ≤ 'F') := by
  decide

/-- Every character produced by the fuelled hex conversion is an
uppercase hex digit. -/
theorem natToHexRevFuel_chars (fuel : Nat) :
    ∀ n, ∀ c ∈ natToHexRevFuel fuel n, c.isDigit ∨ ('A' ≤ c ∧ c ≤ 'F') := by
  induction fuel with
  | zero =>
    intro n c hc
    cases hc
  | succ fuel ih =>
    intro n c hc
    by_cases h : n = 0
    · simp [natToHexRevFuel, h] at hc
    · simp only [natToHexRevFuel, if_neg h] at hc
      rcases List.mem_cons.mp hc with h1 | h1
      · subst h1
        exact hexChar_shape _ (Nat.mod_lt _ (by decide))
      · exact ih (n / 16) c h1

/-- The fuelled hex conversion of a value below 16 to the k produces at
most k digits. -/
theorem natToHexRevFuel_length (k : Nat) :
    ∀ fuel n, n < 16 ^ k → (natToHexRevFuel fuel n).length ≤ k := by
  induction k with
  | zero =>
    intro fuel n h
    have h0 : n = 0 := by
      simp only [pow_zero] at h
      omega
    cases fuel with
    | zero => simp [natToHexRevFuel]
    | succ f => simp [natToHexRevFuel, h0]
  | succ k ih =>
    intro fuel n h
    cases fuel with
    | zero => simp [natToHexRevFuel]
    | succ f =>
      by_cases h0 : n = 0
      · simp [natToHexRevFuel, h0]
      · simp only [natToHexRevFuel, if_neg h0, List.length_cons]
        have hdiv : n / 16 < 16 ^ k := by
          rw [pow_succ] at h
          omega
        exact Nat.succ_le_succ (ih f (n / 16) hdiv)

/-- The unpadded hex digit list of a value below 65536 has between one
and four characters, all uppercase hex digits. -/
theorem natToHexList_shape (n : Nat) (h : n < 65536) :
    (natToHexList n).length ≤ 4 ∧
      ∀ c ∈ natToHexList n, c.isDigit ∨ ('A' ≤ c ∧ c ≤ 'F') := by
  unfold natToHexList
  by_cases h0 : n = 0
  · rw [if_pos h0]
    refine ⟨by decide, ?_⟩
    decide
  · rw [if_neg h0]
    constructor
    · rw [List.length_reverse]
      exact natToHexRevFuel_length 4 n n (by norm_num at h ⊢; exact h)
    · intro c hc
      exact natToHexRevFuel_chars n n c (List.mem_reverse.mp hc)

/-- C4 counterexample: the hex-parseable input 12345 canonicalizes to the
five-digit string 12345, not a 4-hex-digit string. -/
theorem canonical_id_five_digits_counterexample :
    convert_esl_id (some "12345") = some "12345" ∧ ("12345" : String).length ≠ 4 :=
  ⟨by rfl, by decide⟩

/-- C4 amended: for hex-parseable input whose value lies in [0, FFFF]
the canonical ESL ID is a 4-hex-digit uppercase string; larger or
negative values produce longer or sign-carrying strings (the 04X format
only guarantees a minimum width); non-hex-parseable input yields no ID. -/
theorem canonical_id_shape (s : String) :
    (∀ n : Int, parsePyHex s = some n → 0 ≤ n → n < 65536 →
      ∃ t, convert_esl_id (some s) = some t ∧ t.length = 4 ∧
        ∀ c ∈ t.data, c.isDigit ∨ ('A' ≤ c ∧ c ≤ 'F')) ∧
    (parsePyHex s = none → convert_esl_id (some s) = none) := by
  constructor
  · intro n hn hnonneg hlt
    refine ⟨formatHex04X n, ?_, ?_, ?_⟩
    · simp [convert_esl_id, hn]
    · unfold formatHex04X
      rw [if_neg (by omega)]
      show (padZerosList (natToHexList n.toNat) 4).length = 4
      have hsz : n.toNat < 65536 := by omega
      have hle := (natToHexList_shape n.toNat hsz).1
      unfold padZerosList
      rw [List.length_append, List.length_replicate]
      omega
    · intro c hc
      unfold formatHex04X at hc
      rw [if_neg (by omega)] at hc
      have hsz : n.toNat < 65536 := by omega
      have hc2 : c ∈ padZerosList (natToHexList n.toNat) 4 := hc
      unfold padZerosList at hc2
      rcases List.mem_append.mp hc2 with h1 | h1
      · left
        have := List.eq_of_mem_replicate h1
        subst this
        decide
      · exact (natToHexList_shape n.toNat hsz).2 c h1
  · intro hnone
    simp [convert_esl_id, hnone]

/-- Witness for C4 amended: the scenario ID 0a canonicalizes to the
4-hex-digit uppercase string 000A. -/
theorem canonical_id_shape_witness :
    convert_esl_id (some "0a") = some "000A" ∧ ("000A" : String).length = 4 := by
  obtain ⟨t, ht, hl, -⟩ := (canonical_id_shape "0a").1 10 (by rfl) (by decide) (by decide)
  exact ⟨by rfl, by decide⟩

/-! ## C6: shelf construction and length mismatches -/

/-- A row of rails is built whenever every index the row will touch is
available in each parallel sequence and no touched item length is
zero. -/
theorem buildRow_total (macs : List String) (empties fulls lens : List Int)
    (imgs : List String) (hnz : ∀ x ∈ lens, x ≠ 0) :
    ∀ (l : List String) (i : Nat),
      (∀ j, j < l.length → i + j < macs.length) →
      (∀ j, j < l.length → i + j < empties.length) →
      (∀ j, j < l.length → i + j < fulls.length) →
      (∀ j, j < l.length → i + j < lens.length) →
      (∀ j, j < l.length → i + j < imgs.length) →
      ∃ rs, buildRow macs empties fulls lens imgs l i = some rs := by
  intro l
  induction l with
  | nil =>
    intro i _ _ _ _ _
    exact ⟨[], rfl⟩
  | cons id rest ih =>
    intro i hm he hf hl hi
    have hm0 : i < macs.length := by have := hm 0 (Nat.succ_pos rest.length); omega
    have he0 : i < empties.length := by have := he 0 (Nat.succ_pos rest.length); omega
    have hf0 : i < fulls.length := by have := hf 0 (Nat.succ_pos rest.length); omega
    have hl0 : i < lens.length := by have := hl 0 (Nat.succ_pos rest.length); omega
    have hi0 : i < imgs.length := by have := hi 0 (Nat.succ_pos rest.length); omega
    have hlz : lens.get ⟨i, hl0⟩ ≠ 0 := hnz _ (List.get_mem lens i hl0)
    obtain ⟨rs, hrs⟩ := ih (i + 1)
      (fun j hj => by have := hm (j + 1) (Nat.succ_lt_succ hj); omega)
      (fun j hj => by have := he (j + 1) (Nat.succ_lt_succ hj); omega)
      (fun j hj => by have := hf (j + 1) (Nat.succ_lt_succ hj); omega)
      (fun j hj => by have := hl (j + 1) (Nat.succ_lt_succ hj); omega)
      (fun j hj => by have := hi (j + 1) (Nat.succ_lt_succ hj); omega)
    refine ⟨(id, ⟨id, macs.get ⟨i, hm0⟩, empties.get ⟨i, he0⟩, fulls.get ⟨i, hf0⟩,
      lens.get ⟨i, hl0⟩, Int.tdiv (lens.get ⟨i, hl0⟩) 4,
      Int.fdiv (empties.get ⟨i, he0⟩ - fulls.get ⟨i, hf0⟩) (lens.get ⟨i, hl0⟩),
      imgs.get ⟨i, hi0⟩, 0, none⟩) :: rs, ?_⟩
    rw [buildRow, List.get?_eq_get he0, List.get?_eq_get hf0, List.get?_eq_get hl0,
      List.get?_eq_get hm0, List.get?_eq_get hi0]
    simp only [RailWidget.init, if_neg hlz, hrs]
    rfl

/-- C6 counterexample: with the ID sequence longer than the
empty-distance sequence the registry construction fails (the index
error is not tolerated), contradicting the claim that any length
mismatch degrades to a warning plus a shortest-subset registry. -/
theorem shelf_build_mismatch_counterexample :
    ShelfWidget.build ⟨["0A", "0B"], ["m1", "m2"], [500], [100, 100], [40, 40],
      ["i1", "i2"]⟩ = none := by
  rfl

/-- C6 amended: the constructor only warns about an ID count other than
eleven and indexes every other sequence at the positions of the (at most
eleven) configured IDs; construction therefore succeeds exactly in the
direction where the ID sequence is the short one: whenever all IDs are
hex-parseable, every other sequence covers those positions, and no item
length is zero, the registry is built without failure.  When another
sequence is shorter than the IDs require, construction fails with an
index error instead of degrading to the shortest subset. -/
theorem shelf_build_short_ids_tolerated (cfg : ShelfConfig) (ids : List String)
    (hids : cfg.ids.mapM (fun s => (parsePyHex s).map formatHex04X) = some ids)
    (hm : min ids.length 11 ≤ cfg.mac_addresses.length)
    (he : min ids.length 11 ≤ cfg.rail_empty_distance.length)
    (hf : min ids.length 11 ≤ cfg.rail_full_distance.length)
    (hl : min ids.length 11 ≤ cfg.item_length.length)
    (hi : min ids.length 11 ≤ cfg.image_path.length)
    (hnz : ∀ x ∈ cfg.item_length, x ≠ 0) :
    ∃ rails, ShelfWidget.build cfg = some rails := by
  obtain ⟨top, htop⟩ := buildRow_total cfg.mac_addresses cfg.rail_empty_distance
    cfg.rail_full_distance cfg.item_length cfg.image_path hnz (ids.take 7) 0
    (fun j hj => by simp only [List.length_take] at hj; omega)
    (fun j hj => by simp only [List.length_take] at hj; omega)
    (fun j hj => by simp only [List.length_take] at hj; omega)
    (fun j hj => by simp only [List.length_take] at hj; omega)
    (fun j hj => by simp only [List.length_take] at hj; omega)
  obtain ⟨bottom, hbot⟩ := buildRow_total cfg.mac_addresses cfg.rail_empty_distance
    cfg.rail_full_distance cfg.item_length cfg.image_path hnz ((ids.drop 7).take 4) 7
    (fun j hj => by simp only [List.length_take, List.length_drop] at hj; omega)
    (fun j hj => by simp only [List.length_take, List.length_drop] at hj; omega)
    (fun j hj => by simp only [List.length_take, List.length_drop] at hj; omega)
    (fun j hj => by simp only [List.length_take, List.length_drop] at hj; omega)
    (fun j hj => by simp only [List.length_take, List.length_drop] at hj; omega)
  refine ⟨(top ++ bottom).foldl (fun rs p => railsInsert rs p.1 p.2) [], ?_⟩
  unfold ShelfWidget.build
  rw [hids]
  simp [htop, hbot]

/-- Witness for C6 amended: the single-ID configuration of the dispatch
scenario builds successfully. -/
theorem shelf_build_short_ids_tolerated_witness :
    (ShelfWidget.build ⟨["0A"], ["AA:BB"], [500], [100], [40], ["img"]⟩).isSome = true := by
  obtain ⟨rails, h⟩ := shelf_build_short_ids_tolerated
    ⟨["0A"], ["AA:BB"], [500], [100], [40], ["img"]⟩ ["000A"] (by rfl)
    (by decide) (by decide) (by decide) (by decide) (by decide) (by decide)
  rw [h]
  rfl

end SmartShelf
